import Mathlib

/-!
# Verification of the text-to-SQL generator (`src/main.py`)

A shallow embedding of the single-file Streamlit application.  Python
strings are modelled as `List Char`; the straight-line UI script is
modelled as a function producing the list of UI events it emits.  The
language model, `sqlparse.format`, `ast.literal_eval` and the database
driver are external collaborators and enter the embedding as parameters
(arbitrary functions / values), so every theorem quantifies over their
behaviour unless a claim pins it down.
-/

namespace TextToSql

/-- Python whitespace characters recognised by `str.strip()` (ASCII part:
space, tab, newline, carriage return, vertical tab, form feed). -/
def isPySpace (c : Char) : Bool :=
  c == ' ' || c == '\t' || c == '\n' || c == '\r' || c == '\x0b' || c == '\x0c'

/-- `s.strip()`: remove leading and trailing whitespace. -/
def pyTrim (s : List Char) : List Char :=
  ((s.dropWhile isPySpace).reverse.dropWhile isPySpace).reverse

/-- `s.rstrip(chars)`: remove trailing characters belonging to `cs`. -/
def pyRstrip (cs : List Char) (s : List Char) : List Char :=
  (s.reverse.dropWhile (fun c => cs.contains c)).reverse

/-- `s.strip(chars)`: remove leading and trailing characters belonging to `cs`. -/
def pyStripChars (cs : List Char) (s : List Char) : List Char :=
  pyRstrip cs (s.dropWhile (fun c => cs.contains c))

/-- `s.startswith(p)` on character lists. -/
def pyStartsWith : List Char → List Char → Bool
  | _, [] => true
  | [], _ :: _ => false
  | c :: s, d :: p => c == d && pyStartsWith s p

/-- The wrapper prefixes of `main.py` line 127, in source order:
`['```sql', '```', 'SQL Query:', 'Query:']`. -/
def prefixesToRemove : List (List Char) :=
  [['`', '`', '`', 's', 'q', 'l'],
   ['`', '`', '`'],
   ['S', 'Q', 'L', ' ', 'Q', 'u', 'e', 'r', 'y', ':'],
   ['Q', 'u', 'e', 'r', 'y', ':']]

/-- The `for prefix in prefixes_to_remove:` loop of `main.py` lines 128–130:
each listed prefix is tested once, in order, against the *current* text, and
stripped (followed by a re-trim) when it matches.  There is no `break` and no
iteration to a fixed point. -/
def stripPrefixLoop : List (List Char) → List Char → List Char
  | [], s => s
  | p :: ps, s =>
      stripPrefixLoop ps (if pyStartsWith s p then pyTrim (s.drop p.length) else s)

/-- The response-cleanup block of `main.py` lines 126–132:
`strip()`, the prefix loop, then `.rstrip(';').strip('\x60').strip()`. -/
def sanitize (s : List Char) : List Char :=
  pyTrim (pyStripChars ['`'] (pyRstrip [';'] (stripPrefixLoop prefixesToRemove (pyTrim s))))

/-- The sanitizer as the spec words it in §4.3 rule 2: "If the text begins
with any of a known set of wrapper prefixes …, strip that prefix and re-trim.
Only the first matching prefix is removed".  Stated from the spec's words for
comparison with the code's `stripPrefixLoop`, which keeps testing the later
prefixes of the list against the already-stripped text. -/
def stripFirstMatchOnly : List (List Char) → List Char → List Char
  | [], s => s
  | p :: ps, s =>
      if pyStartsWith s p then pyTrim (s.drop p.length) else stripFirstMatchOnly ps s

/-- `sanitize` as the spec describes it: trim, remove only the first matching
wrapper prefix, then the semicolon/backtick cleanup of rule 3. -/
def sanitizeSpecOneStrip (s : List Char) : List Char :=
  pyTrim (pyStripChars ['`'] (pyRstrip [';'] (stripFirstMatchOnly prefixesToRemove (pyTrim s))))

/-! ## Values and execution results

`db.run` returns either a string (the driver's serialized representation,
which `ast.literal_eval` may re-parse into a Python literal) or some other
Python value.  `PyVal` models the Python literals relevant to the result
normalizer; `ast.literal_eval` itself is an external library function and
enters the embedding as a parameter `parse : List Char → Option PyVal`
(`none` = the call raised, caught by the bare `except:`). -/

inductive PyVal where
  | pyInt (n : Int)
  | pyStr (s : List Char)
  | pyNone
  | tup (fields : List PyVal)
  | pyList (elems : List PyVal)

/-- `isinstance(v, tuple)`. -/
def isTuple : PyVal → Bool
  | .tup _ => true
  | _ => false

/-- The value returned by `db.run`: a string, or any other Python value
(`isinstance(result, str)` decides which branch runs). -/
inductive ExecResult where
  | str (s : List Char)
  | other (v : PyVal)

/-- The row a `PyVal` contributes to `pd.DataFrame(parsed_result)`:
a tuple contributes its fields positionally, any other value a single cell.
(pandas is an external library; this models its documented construction of a
data frame from a list of row tuples.) -/
def tupleFields : PyVal → List PyVal
  | .tup fs => fs
  | v => [v]

/-- Number of cells the element contributes as a row. -/
def arity (v : PyVal) : Nat := (tupleFields v).length

/-- The rows of `pd.DataFrame(parsed_result)`. -/
def dfRows (l : List PyVal) : List (List PyVal) := l.map tupleFields

/-- The column count of `pd.DataFrame(parsed_result)`: pandas pads ragged
rows to the longest one, so the width is the maximum arity. -/
def dfColCount (l : List PyVal) : Nat := l.foldr (fun v m => max (arity v) m) 0

/-! ## The Streamlit script as a trace of UI events

`main.py` is a straight-line script; each `st.*` call is modelled as one
event appended to the trace.  `st.stop()` ends the script, so `stopped` is
always the last event of a halting trace. -/

inductive UIEvent where
  | title (t : List Char)
  | subheader (t : List Char)
  | selectbox (label : List Char)
  | textInput (label : List Char)
  | errorMsg (t : List Char)
  | infoMsg (t : List Char)
  | codeBlock (t : List Char)
  | successMsg (t : List Char)
  | warningMsg (t : List Char)
  | dbConnect (name : List Char)
  | modelInvoke (question : List Char)
  | dbRun (sql : List Char)
  | dataframe (rows : List PyVal)
  | writeVal (v : PyVal)
  | textMsg (t : List Char)
  | stopped

/-- An interactive input widget (the schema selector or the question field). -/
def isWidget : UIEvent → Bool
  | .selectbox _ => true
  | .textInput _ => true
  | _ => false

def isStop : UIEvent → Bool
  | .stopped => true
  | _ => false

def isErrorEvent : UIEvent → Bool
  | .errorMsg _ => true
  | _ => false

def isDbConnect : UIEvent → Bool
  | .dbConnect _ => true
  | _ => false

def isModelInvoke : UIEvent → Bool
  | .modelInvoke _ => true
  | _ => false

def isDbRun : UIEvent → Bool
  | .dbRun _ => true
  | _ => false

/-! ## Startup (lines 19–70) -/

/-- The two credentials the script validates (lines 33–34). -/
structure Config where
  password : List Char
  groqApiKey : List Char

/-- `os.getenv(name, default)`: an absent variable yields the default. -/
def getenvOr (v : Option (List Char)) (d : List Char) : List Char := v.getD d

/-- Lines 33–34: `MYSQL_PASSWORD` and `GROQ_API_KEY` both default to the
empty string when absent from the environment. -/
def configFromEnv (envPassword envGroqApiKey : Option (List Char)) : Config :=
  { password := getenvOr envPassword []
    groqApiKey := getenvOr envGroqApiKey [] }

/-- Python truthiness of a string: `if not s:` fires exactly when `s` is empty. -/
def pyTruthy (s : List Char) : Bool := !s.isEmpty

/-- The `st.code` block shown when the password is missing (lines 40–47). -/
def envFileTemplate : List Char :=
  ("\n# Create a .env file in your project root with:\nMYSQL_HOST=127.0.0.1\n" ++
   "MYSQL_PORT=3306\nMYSQL_USER=root\nMYSQL_PASSWORD=your_password_here\n" ++
   "GROQ_API_KEY=your_groq_api_key_here\n    ").toList

/-- Lines 19–70 of the script: title and subheader, the schema selector and
question field, then credential validation (halting via `st.stop()` when the
password or the API key is empty), then the cached connection attempt.
`connectOk`/`excMsg` stand for the outcome of `SQLDatabase.from_uri`. -/
def startupTrace (cfg : Config) (selectedDb : List Char) (connectOk : Bool)
    (excMsg : List Char) : List UIEvent :=
  [UIEvent.title "🧠 Text_to_SQL".toList,
   UIEvent.subheader ("This application can connect to all tables in the " ++
     "selected database and generate required queries").toList,
   UIEvent.selectbox "Choose a database schema".toList,
   UIEvent.textInput "Enter your natural language query".toList] ++
  (if !pyTruthy cfg.password then
    [UIEvent.errorMsg "❌ MYSQL_PASSWORD not found in environment variables".toList,
     UIEvent.infoMsg "💡 Create a .env file with your MySQL password".toList,
     UIEvent.codeBlock envFileTemplate,
     UIEvent.stopped]
  else if !pyTruthy cfg.groqApiKey then
    [UIEvent.errorMsg "❌ GROQ_API_KEY not found in environment variables".toList,
     UIEvent.infoMsg "💡 Add GROQ_API_KEY to your .env file".toList,
     UIEvent.stopped]
  else if connectOk then
    [UIEvent.dbConnect selectedDb,
     UIEvent.successMsg ("✅ Connected to database: ".toList ++ selectedDb)]
  else
    [UIEvent.dbConnect selectedDb,
     UIEvent.errorMsg ("❌ Failed to connect to database: ".toList ++ excMsg),
     UIEvent.infoMsg "💡 Check your .env file and make sure MySQL is running".toList,
     UIEvent.stopped])

/-! ## Result normalization (lines 144–161) -/

/-- Lines 144–161: the display event produced for one execution result.
The `none` value marks the one spot where Python would evaluate
`parsed_result[0]` out of bounds (an `IndexError`); the emptiness test on
the line above guards it, and the theorems show this path is unreachable.
A `parse` failure is the `except:` arm — `st.text(result)` with the raw
string untouched. -/
def renderResultG (parse : List Char → Option PyVal) : ExecResult → Option UIEvent
  | .str s =>
    match parse s with
    | none => some (UIEvent.textMsg s)
    | some v =>
      match v with
      | .pyList l =>
        if l.length = 0 then
          some (UIEvent.infoMsg "No results found.".toList)
        else
          match l[0]? with
          | none => none
          | some h =>
            if isTuple h then some (UIEvent.dataframe l)
            else some (UIEvent.writeVal (.pyList l))
      | _ => some (UIEvent.writeVal v)
  | .other v => some (UIEvent.writeVal v)

/-! ## The button handler (lines 116–175) -/

/-- Outcome of `sql_chain.invoke` (the language-model call): the raw response
text, or an exception message. -/
inductive ChainOutcome where
  | chainOk (rawResponse : List Char)
  | chainErr (e : List Char)

/-- Outcome of `db.run(sql_query)`: a result value or one of the exception
classes distinguished by the three `except` arms (lines 165–175). -/
inductive RunOutcome where
  | ok (result : ExecResult)
  | programmingError (e : List Char)
  | operationalError (e : List Char)
  | otherError (e : List Char)

/-- Lines 116–175: the trace of one click on "Generate SQL and Run".
A blank question (falsy after `.strip()`) only warns; otherwise the model is
invoked, its response sanitized, the *formatted* copy displayed with
`st.code`, and the *sanitized* text executed with `db.run`.  `fmt` stands for
`sqlparse.format` (external library); a chain failure lands in the catch-all
`except Exception` arm. -/
def buttonTrace (question : List Char) (chain : ChainOutcome)
    (fmt : List Char → List Char) (parse : List Char → Option PyVal)
    (run : RunOutcome) : List UIEvent :=
  if !pyTruthy (pyTrim question) then
    [UIEvent.warningMsg "⚠️ Please enter a natural language query.".toList]
  else
    match chain with
    | .chainErr e =>
      [UIEvent.modelInvoke question,
       UIEvent.errorMsg ("❌ Error: ".toList ++ e),
       UIEvent.infoMsg ("💡 Try rephrasing your question or check if the " ++
         "database has tables.").toList]
    | .chainOk rawResponse =>
      let sqlQuery := sanitize rawResponse
      let formattedSql := fmt sqlQuery
      [UIEvent.modelInvoke question,
       UIEvent.subheader "📝 Generated SQL Query:".toList,
       UIEvent.codeBlock formattedSql,
       UIEvent.dbRun sqlQuery] ++
      (match run with
       | .ok result =>
         [UIEvent.subheader "📊 Query Results:".toList] ++
         (renderResultG parse result).toList ++
         [UIEvent.successMsg "✅ Query executed successfully!".toList]
       | .programmingError e =>
         [UIEvent.errorMsg ("❌ SQL Syntax Error: ".toList ++ e),
          UIEvent.infoMsg ("💡 The generated SQL query has syntax errors. " ++
            "Try rephrasing your question.").toList]
       | .operationalError e =>
         [UIEvent.errorMsg ("❌ Database Error: ".toList ++ e),
          UIEvent.infoMsg "💡 Make sure tables exist in the database.".toList]
       | .otherError e =>
         [UIEvent.errorMsg ("❌ Error: ".toList ++ e),
          UIEvent.infoMsg ("💡 Try rephrasing your question or check if the " ++
            "database has tables.").toList])

/-- The argument of the first `dbRun` event of a trace: the statement that
was sent to the database. -/
def firstDbRun : List UIEvent → Option (List Char)
  | [] => none
  | UIEvent.dbRun s :: _ => some s
  | _ :: es => firstDbRun es

/-- The argument of the first `codeBlock` event of a trace: the SQL text
shown to the user (after `sqlparse.format`). -/
def firstCodeBlock : List UIEvent → Option (List Char)
  | [] => none
  | UIEvent.codeBlock s :: _ => some s
  | _ :: es => firstCodeBlock es

/-! ## Cleanliness predicates for the sanitizer theorems -/

/-- The first character exists and is neither whitespace nor a backtick. -/
def goodHead (s : List Char) : Bool :=
  match s with
  | [] => false
  | c :: _ => !isPySpace c && !(c == '`')

/-- The last character exists and is none of whitespace, `;`, or a backtick. -/
def goodTail (s : List Char) : Bool :=
  match s.reverse with
  | [] => false
  | c :: _ => !isPySpace c && !(c == ';') && !(c == '`')

/-- None of the four wrapper prefixes matches the front of `s`. -/
def noWrapperAhead (s : List Char) : Bool :=
  prefixesToRemove.all (fun p => !pyStartsWith s p)

/-- A concrete stand-in for `ast.literal_eval` used by the witness theorems:
it parses exactly the driver strings they mention and fails on everything
else. -/
def literalEvalStub (s : List Char) : Option PyVal :=
  if s = "[]".toList then some (PyVal.pyList [])
  else if s = "[(1, 2), (3, 4)]".toList then
    some (PyVal.pyList [PyVal.tup [PyVal.pyInt 1, PyVal.pyInt 2],
      PyVal.tup [PyVal.pyInt 3, PyVal.pyInt 4]])
  else if s = "[(1,), 'x']".toList then
    some (PyVal.pyList [PyVal.tup [PyVal.pyInt 1], PyVal.pyStr ['x']])
  else none

/-! ## Helper lemmas -/

lemma dropWhile_cons_false {p : Char → Bool} {c : Char} {l : List Char}
    (h : p c = false) : (c :: l).dropWhile p = c :: l := by
  simp [List.dropWhile, h]

lemma dropWhile_cons_true {p : Char → Bool} {c : Char} {l : List Char}
    (h : p c = true) : (c :: l).dropWhile p = l.dropWhile p := by
  simp [List.dropWhile, h]

lemma pyTrim_eq_self {s : List Char} (h1 : s.dropWhile isPySpace = s)
    (h2 : s.reverse.dropWhile isPySpace = s.reverse) : pyTrim s = s := by
  unfold pyTrim
  rw [h1, h2, List.reverse_reverse]

lemma pyRstrip_eq_self {cs s : List Char}
    (h : s.reverse.dropWhile (fun c => cs.contains c) = s.reverse) :
    pyRstrip cs s = s := by
  unfold pyRstrip
  rw [h, List.reverse_reverse]

lemma pyStartsWith_cons_ne {c d : Char} (s p : List Char) (h : (c == d) = false) :
    pyStartsWith (c :: s) (d :: p) = false := by
  simp [pyStartsWith, h]

lemma pyStartsWith_append_self (p r : List Char) : pyStartsWith (p ++ r) p = true := by
  induction p with
  | nil => cases r <;> simp [pyStartsWith]
  | cons c cs ih => simp [pyStartsWith, ih]

lemma stripPrefixLoop_no_match {s : List Char} (h : noWrapperAhead s = true) :
    stripPrefixLoop prefixesToRemove s = s := by
  simp only [noWrapperAhead, prefixesToRemove, List.all_cons, List.all_nil,
    Bool.and_eq_true, Bool.not_eq_true', and_true] at h
  obtain ⟨h1, h2, h3, h4⟩ := h
  simp [prefixesToRemove, stripPrefixLoop, h1, h2, h3, h4]

/-- A text whose first character is neither whitespace nor a backtick, whose
last character is none of whitespace/semicolon/backtick, and which begins
with none of the wrapper prefixes passes through `sanitize` unchanged. -/
lemma sanitize_fixed_of_clean {s : List Char} (hh : goodHead s = true)
    (ht : goodTail s = true) (hw : noWrapperAhead s = true) : sanitize s = s := by
  have hfront : s.dropWhile isPySpace = s ∧
      s.dropWhile (fun x => List.contains ['`'] x) = s := by
    cases s with
    | nil => simp [goodHead] at hh
    | cons c l =>
      simp only [goodHead, Bool.and_eq_true, Bool.not_eq_true'] at hh
      refine ⟨dropWhile_cons_false hh.1, dropWhile_cons_false ?_⟩
      simp [List.contains, List.elem, hh.2]
  have hback : s.reverse.dropWhile isPySpace = s.reverse ∧
      s.reverse.dropWhile (fun x => List.contains [';'] x) = s.reverse ∧
      s.reverse.dropWhile (fun x => List.contains ['`'] x) = s.reverse := by
    cases hr : s.reverse with
    | nil => simp [goodTail, hr] at ht
    | cons d m =>
      simp only [goodTail, hr, Bool.and_eq_true, Bool.not_eq_true'] at ht
      refine ⟨dropWhile_cons_false ht.1.1, dropWhile_cons_false ?_,
        dropWhile_cons_false ?_⟩
      · simp [List.contains, List.elem, ht.1.2]
      · simp [List.contains, List.elem, ht.2]
  have e1 : pyTrim s = s := pyTrim_eq_self hfront.1 hback.1
  have e3 : pyRstrip [';'] s = s := pyRstrip_eq_self hback.2.1
  have e4 : pyStripChars ['`'] s = s := by
    unfold pyStripChars
    rw [hfront.2]
    exact pyRstrip_eq_self hback.2.2
  unfold sanitize
  rw [e1, stripPrefixLoop_no_match hw, e3, e4, e1]

/-! ## C1 — prefix stripping is single-pass per prefix, not single-strip -/

/-- C1 counterexample: the claim says that after the first recognized prefix
is stripped no further prefix is removed ("a doubly-wrapped response survives
with exactly one layer stripped").  On `"```sql\nSQL Query: SELECT 1"` the
code strips the code fence *and then also* the later-listed `SQL Query:`
label, while the claim's single-strip reading (`sanitizeSpecOneStrip`) keeps
the inner label. -/
theorem sanitize_second_prefix_stripped_cex :
    sanitize "```sql\nSQL Query: SELECT 1".toList = "SELECT 1".toList ∧
    sanitizeSpecOneStrip "```sql\nSQL Query: SELECT 1".toList =
      "SQL Query: SELECT 1".toList ∧
    sanitize "```sql\nSQL Query: SELECT 1".toList ≠
      sanitizeSpecOneStrip "```sql\nSQL Query: SELECT 1".toList :=
  ⟨by decide, by decide, by decide⟩

/-- C1 (amended): the prefix loop tests each listed prefix once, in order,
against the current text; a prefix already passed is never re-examined, so a
response doubly wrapped in the *same* label loses exactly one layer — here
the outer of two `Query:` labels is stripped and the inner one survives. -/
theorem sanitize_double_label_one_strip (t : List Char) (ht : goodTail t = true) :
    sanitize ("Query: Query: ".toList ++ t) = "Query: ".toList ++ t := by
  cases hr : t.reverse with
  | nil => simp [goodTail, hr] at ht
  | cons d m =>
    unfold goodTail at ht
    rw [hr] at ht
    simp only [Bool.and_eq_true, Bool.not_eq_true'] at ht
    obtain ⟨⟨hd1, hd2⟩, hd3⟩ := ht
    have hbdrop : ∀ (a : List Char) (p : Char → Bool), p d = false →
        ((a ++ t).reverse).dropWhile p = (a ++ t).reverse := by
      intro a p hp
      rw [List.reverse_append, hr, List.cons_append]
      exact dropWhile_cons_false hp
    have hsemi : (fun c => List.contains [';'] c) d = false := by
      simp [List.contains, List.elem, hd2]
    have htick : (fun c => List.contains ['`'] c) d = false := by
      simp [List.contains, List.elem, hd3]
    have hqq : "Query: Query: ".toList ++ t =
        ['Q','u','e','r','y',':',' ','Q','u','e','r','y',':',' '] ++ t := rfl
    have hq7 : "Query: ".toList ++ t = ['Q','u','e','r','y',':',' '] ++ t := rfl
    rw [hqq, hq7]
    have e1 : pyTrim (['Q','u','e','r','y',':',' ','Q','u','e','r','y',':',' '] ++ t)
        = ['Q','u','e','r','y',':',' ','Q','u','e','r','y',':',' '] ++ t := by
      refine pyTrim_eq_self ?_ (hbdrop _ _ hd1)
      rw [List.cons_append]
      exact dropWhile_cons_false (by decide)
    have n1 : pyStartsWith (['Q','u','e','r','y',':',' ','Q','u','e','r','y',':',' '] ++ t)
        ['`','`','`','s','q','l'] = false := by
      rw [List.cons_append]; exact pyStartsWith_cons_ne _ _ (by decide)
    have n2 : pyStartsWith (['Q','u','e','r','y',':',' ','Q','u','e','r','y',':',' '] ++ t)
        ['`','`','`'] = false := by
      rw [List.cons_append]; exact pyStartsWith_cons_ne _ _ (by decide)
    have n3 : pyStartsWith (['Q','u','e','r','y',':',' ','Q','u','e','r','y',':',' '] ++ t)
        ['S','Q','L',' ','Q','u','e','r','y',':'] = false := by
      rw [List.cons_append]; exact pyStartsWith_cons_ne _ _ (by decide)
    have n4 : pyStartsWith (['Q','u','e','r','y',':',' ','Q','u','e','r','y',':',' '] ++ t)
        ['Q','u','e','r','y',':'] = true := by
      have h : (['Q','u','e','r','y',':',' ','Q','u','e','r','y',':',' '] : List Char) ++ t =
          ['Q','u','e','r','y',':'] ++ ([' ','Q','u','e','r','y',':',' '] ++ t) := rfl
      rw [h]
      exact pyStartsWith_append_self _ _
    have e2 : pyTrim ([' '] ++ (['Q','u','e','r','y',':',' '] ++ t))
        = ['Q','u','e','r','y',':',' '] ++ t := by
      unfold pyTrim
      simp only [List.cons_append, List.nil_append]
      rw [dropWhile_cons_true (by decide), dropWhile_cons_false (by decide)]
      have hc : ('Q' :: 'u' :: 'e' :: 'r' :: 'y' :: ':' :: ' ' :: t)
          = ['Q','u','e','r','y',':',' '] ++ t := rfl
      rw [hc, hbdrop _ _ hd1, List.reverse_reverse]
    have hloop : stripPrefixLoop prefixesToRemove
        (['Q','u','e','r','y',':',' ','Q','u','e','r','y',':',' '] ++ t)
        = ['Q','u','e','r','y',':',' '] ++ t := by
      have hd6 : (['Q','u','e','r','y',':',' ','Q','u','e','r','y',':',' '] ++ t).drop
            (['Q','u','e','r','y',':'] : List Char).length
          = [' '] ++ (['Q','u','e','r','y',':',' '] ++ t) := rfl
      simp only [prefixesToRemove, stripPrefixLoop, n1, n2, n3, n4, Bool.false_eq_true,
        if_false, if_true, hd6, e2]
    have e3 : pyRstrip [';'] (['Q','u','e','r','y',':',' '] ++ t)
        = ['Q','u','e','r','y',':',' '] ++ t := pyRstrip_eq_self (hbdrop _ _ hsemi)
    have e4 : pyStripChars ['`'] (['Q','u','e','r','y',':',' '] ++ t)
        = ['Q','u','e','r','y',':',' '] ++ t := by
      unfold pyStripChars
      have hfront : (['Q','u','e','r','y',':',' '] ++ t).dropWhile
          (fun c => List.contains ['`'] c) = ['Q','u','e','r','y',':',' '] ++ t := by
        simp only [List.cons_append]
        exact dropWhile_cons_false (by decide)
      rw [hfront]
      exact pyRstrip_eq_self (hbdrop _ _ htick)
    have e5 : pyTrim (['Q','u','e','r','y',':',' '] ++ t)
        = ['Q','u','e','r','y',':',' '] ++ t := by
      refine pyTrim_eq_self ?_ (hbdrop _ _ hd1)
      rw [List.cons_append]
      exact dropWhile_cons_false (by decide)
    unfold sanitize
    rw [e1, hloop, e3, e4, e5]

/-- C1 witness: the amended theorem applied to the tail `"SELECT 1"`. -/
theorem sanitize_double_label_one_strip_witness :
    goodTail "SELECT 1".toList = true ∧
    sanitize ("Query: Query: ".toList ++ "SELECT 1".toList) =
      "Query: ".toList ++ "SELECT 1".toList :=
  ⟨by decide, sanitize_double_label_one_strip "SELECT 1".toList (by decide)⟩

/-! ## C2 — startup halting on missing credentials -/

/-- C2 counterexample: the claim says the program halts *before* the schema
selector or the question field becomes usable.  In the script, `st.selectbox`
(line 24) and `st.text_input` (line 27) run before the credential checks of
lines 37–53, so with the password absent both widgets are rendered before the
halt: the part of the trace preceding `stopped` contains a widget. -/
theorem startup_widget_before_halt_cex :
    ((startupTrace (configFromEnv none (some "gsk_key".toList))
        "enterprise_saas".toList true []).takeWhile (fun e => !isStop e)).any
      isWidget = true ∧
    (startupTrace (configFromEnv none (some "gsk_key".toList))
        "enterprise_saas".toList true []).any isStop = true :=
  ⟨by decide, by decide⟩

/-- C2 (amended): if the password or the API key environment variable is
absent, the script shows a user-facing error and halts — `stopped` is the
last event — before any database connection is attempted (and hence before
any schema introspection, model call, or query execution), and no default
credential is substituted: the `os.getenv` fallback is the empty string,
which the check treats as absent.  The schema selector and the question
field are, however, rendered before the credential check runs. -/
theorem startup_halts_on_missing_credentials (envPassword envGroqApiKey :
    Option (List Char)) (selectedDb : List Char) (connectOk : Bool)
    (excMsg : List Char) (h : envPassword = none ∨ envGroqApiKey = none) :
    (startupTrace (configFromEnv envPassword envGroqApiKey) selectedDb connectOk
        excMsg).any isErrorEvent = true ∧
    (startupTrace (configFromEnv envPassword envGroqApiKey) selectedDb connectOk
        excMsg).getLast? = some UIEvent.stopped ∧
    (startupTrace (configFromEnv envPassword envGroqApiKey) selectedDb connectOk
        excMsg).all (fun e => !isDbConnect e) = true := by
  rcases h with h | h
  · subst h
    simp [startupTrace, configFromEnv, getenvOr, pyTruthy, isErrorEvent,
      isDbConnect, isStop, List.getLast?]
  · subst h
    rcases envPassword with _ | (_ | ⟨c, cs⟩)
    · simp [startupTrace, configFromEnv, getenvOr, pyTruthy, isErrorEvent,
        isDbConnect, List.getLast?]
    · simp [startupTrace, configFromEnv, getenvOr, pyTruthy, isErrorEvent,
        isDbConnect, List.getLast?]
    · simp [startupTrace, configFromEnv, getenvOr, pyTruthy, isErrorEvent,
        isDbConnect, List.getLast?]

/-- C2 witness: a missing password halts the startup trace. -/
theorem startup_halts_on_missing_credentials_witness :
    ((none : Option (List Char)) = none ∨ (some "gsk_key".toList :
        Option (List Char)) = none) ∧
    ((startupTrace (configFromEnv none (some "gsk_key".toList))
        "e_commerce".toList true []).any isErrorEvent = true ∧
     (startupTrace (configFromEnv none (some "gsk_key".toList))
        "e_commerce".toList true []).getLast? = some UIEvent.stopped ∧
     (startupTrace (configFromEnv none (some "gsk_key".toList))
        "e_commerce".toList true []).all (fun e => !isDbConnect e) = true) :=
  ⟨Or.inl rfl, startup_halts_on_missing_credentials none (some "gsk_key".toList)
    "e_commerce".toList true [] (Or.inl rfl)⟩

/-! ## C3 — idempotence of `sanitize` -/

/-- C3 counterexample: `sanitize` is not idempotent.  A response carrying two
`Query:` labels keeps the inner one after the first application, and a second
application strips it. -/
theorem sanitize_not_idempotent_cex :
    sanitize (sanitize "Query: Query: SELECT 1".toList) ≠
      sanitize "Query: Query: SELECT 1".toList := by decide

/-- C3 (amended): a second application of `sanitize` changes nothing provided
the first output carries no residual artifact: its first character is neither
whitespace nor a backtick, its last character is none of
whitespace/semicolon/backtick, and it starts with none of the four wrapper
prefixes.  (In general a second application can strip further, as the
counterexample shows.) -/
theorem sanitize_idempotent_on_clean_output (x : List Char)
    (hh : goodHead (sanitize x) = true) (ht : goodTail (sanitize x) = true)
    (hw : noWrapperAhead (sanitize x) = true) :
    sanitize (sanitize x) = sanitize x :=
  sanitize_fixed_of_clean hh ht hw

/-- C3 witness: a clean statement, already a fixed point after one pass. -/
theorem sanitize_idempotent_on_clean_output_witness :
    (goodHead (sanitize "SELECT id FROM users".toList) = true ∧
     goodTail (sanitize "SELECT id FROM users".toList) = true ∧
     noWrapperAhead (sanitize "SELECT id FROM users".toList) = true) ∧
    sanitize (sanitize "SELECT id FROM users".toList) =
      sanitize "SELECT id FROM users".toList :=
  ⟨⟨by decide, by decide, by decide⟩,
    sanitize_idempotent_on_clean_output "SELECT id FROM users".toList
      (by decide) (by decide) (by decide)⟩

/-! ## C7 — the worked sanitizer example of the spec -/

/-- C7: `sanitize "```sql\nSELECT 1```"` returns exactly `"SELECT 1"` — the
fenced language tag is stripped in the prefix loop and the trailing backticks
by the final cleanup. -/
theorem sanitize_codefence_example :
    sanitize "```sql\nSELECT 1```".toList = "SELECT 1".toList := by decide

/-! ## Column-count lemmas for the dataframe model -/

lemma dfColCount_cons (v : PyVal) (t : List PyVal) :
    dfColCount (v :: t) = max (arity v) (dfColCount t) := rfl

lemma dfColCount_uniform {k : Nat} : ∀ {l : List PyVal}, l ≠ [] →
    (∀ v ∈ l, arity v = k) → dfColCount l = k := by
  intro l
  induction l with
  | nil => intro h; exact absurd rfl h
  | cons v t ih =>
    intro _ hall
    cases t with
    | nil =>
      rw [dfColCount_cons, hall v (List.mem_cons_self v [])]
      simp [dfColCount]
    | cons w u =>
      rw [dfColCount_cons, hall v (List.mem_cons_self v (w :: u)),
        ih (List.cons_ne_nil w u) (fun x hx => hall x (List.mem_cons_of_mem v hx))]
      exact Nat.max_self k

/-! ## C4 — string-encoded list of records renders as a full-size table -/

/-- C4: when the execution result is a string whose literal parse is a
non-empty list of records all of arity `k`, the normalizer renders the whole
list as a table with one row per record and `k` positional columns. -/
theorem tuple_list_renders_full_table (parse : List Char → Option PyVal)
    (s : List Char) (l : List PyVal) (k : Nat)
    (hp : parse s = some (PyVal.pyList l)) (hne : l ≠ [])
    (hk : ∀ v ∈ l, isTuple v = true ∧ arity v = k) :
    renderResultG parse (ExecResult.str s) = some (UIEvent.dataframe l) ∧
    (dfRows l).length = l.length ∧ dfColCount l = k := by
  obtain ⟨h0, t0, rfl⟩ := List.exists_cons_of_ne_nil hne
  refine ⟨?_, by simp [dfRows], dfColCount_uniform hne (fun v hv => (hk v hv).2)⟩
  have hh := hk h0 (List.mem_cons_self h0 t0)
  simp [renderResultG, hp, hh.1]

/-- C4 witness: `"[(1, 2), (3, 4)]"` renders as a 2×2 table. -/
theorem tuple_list_renders_full_table_witness :
    literalEvalStub "[(1, 2), (3, 4)]".toList =
      some (PyVal.pyList [PyVal.tup [PyVal.pyInt 1, PyVal.pyInt 2],
        PyVal.tup [PyVal.pyInt 3, PyVal.pyInt 4]]) ∧
    (renderResultG literalEvalStub (ExecResult.str "[(1, 2), (3, 4)]".toList) =
      some (UIEvent.dataframe [PyVal.tup [PyVal.pyInt 1, PyVal.pyInt 2],
        PyVal.tup [PyVal.pyInt 3, PyVal.pyInt 4]]) ∧
     (dfRows [PyVal.tup [PyVal.pyInt 1, PyVal.pyInt 2],
        PyVal.tup [PyVal.pyInt 3, PyVal.pyInt 4]]).length =
       ([PyVal.tup [PyVal.pyInt 1, PyVal.pyInt 2],
        PyVal.tup [PyVal.pyInt 3, PyVal.pyInt 4]] : List PyVal).length ∧
     dfColCount [PyVal.tup [PyVal.pyInt 1, PyVal.pyInt 2],
        PyVal.tup [PyVal.pyInt 3, PyVal.pyInt 4]] = 2) :=
  ⟨rfl, tuple_list_renders_full_table literalEvalStub _ _ 2 rfl
    (by simp) (by decide)⟩

/-! ## C5 — string-encoded empty list reports "no results", never a table -/

/-- C5: when the execution result is a string whose literal parse is the
empty list, the normalizer emits the "No results found." message and in
particular never a table. -/
theorem empty_list_reports_no_results (parse : List Char → Option PyVal)
    (s : List Char) (h : parse s = some (PyVal.pyList [])) :
    renderResultG parse (ExecResult.str s) =
      some (UIEvent.infoMsg "No results found.".toList) ∧
    ∀ rows, renderResultG parse (ExecResult.str s) ≠
      some (UIEvent.dataframe rows) := by
  have e : renderResultG parse (ExecResult.str s) =
      some (UIEvent.infoMsg "No results found.".toList) := by
    simp [renderResultG, h]
  refine ⟨e, ?_⟩
  intro rows hc
  rw [e] at hc
  simp at hc

/-- C5 witness: the driver string `"[]"`. -/
theorem empty_list_reports_no_results_witness :
    literalEvalStub "[]".toList = some (PyVal.pyList []) ∧
    renderResultG literalEvalStub (ExecResult.str "[]".toList) =
      some (UIEvent.infoMsg "No results found.".toList) :=
  ⟨rfl, (empty_list_reports_no_results literalEvalStub "[]".toList rfl).1⟩

/-! ## C6 — parse failure silently falls back to the raw text -/

/-- C6: when the execution result is a string that `ast.literal_eval` cannot
parse, the normalizer raises nothing and displays the raw string unchanged
(`st.text(result)`). -/
theorem parse_failure_falls_back_to_raw_text (parse : List Char → Option PyVal)
    (s : List Char) (h : parse s = none) :
    renderResultG parse (ExecResult.str s) = some (UIEvent.textMsg s) := by
  simp [renderResultG, h]

/-- C6 witness: a non-literal driver message is shown as-is. -/
theorem parse_failure_falls_back_to_raw_text_witness :
    literalEvalStub "3 rows affected.".toList = none ∧
    renderResultG literalEvalStub (ExecResult.str "3 rows affected.".toList) =
      some (UIEvent.textMsg "3 rows affected.".toList) :=
  ⟨rfl, parse_failure_falls_back_to_raw_text literalEvalStub
    "3 rows affected.".toList rfl⟩

/-! ## C8 — a blank question warns and triggers nothing -/

/-- C8: when the question is empty or whitespace-only, the click handler
emits exactly the warning — no model invocation and no database execution
occur. -/
theorem blank_question_only_warns (question : List Char) (chain : ChainOutcome)
    (fmt : List Char → List Char) (parse : List Char → Option PyVal)
    (run : RunOutcome) (h : pyTrim question = []) :
    buttonTrace question chain fmt parse run =
      [UIEvent.warningMsg "⚠️ Please enter a natural language query.".toList] ∧
    (buttonTrace question chain fmt parse run).all
      (fun e => !isModelInvoke e && !isDbRun e) = true := by
  have hq : pyTruthy (pyTrim question) = false := by rw [h]; rfl
  constructor
  · simp [buttonTrace, hq]
  · simp [buttonTrace, hq, isModelInvoke, isDbRun]

/-- C8 witness: a whitespace-only question. -/
theorem blank_question_only_warns_witness :
    pyTrim "   ".toList = [] ∧
    (buttonTrace "   ".toList (ChainOutcome.chainOk "SELECT 1".toList)
        (fun s => s) literalEvalStub (RunOutcome.ok (ExecResult.str "[]".toList)) =
      [UIEvent.warningMsg "⚠️ Please enter a natural language query.".toList] ∧
     (buttonTrace "   ".toList (ChainOutcome.chainOk "SELECT 1".toList)
        (fun s => s) literalEvalStub
        (RunOutcome.ok (ExecResult.str "[]".toList))).all
      (fun e => !isModelInvoke e && !isDbRun e) = true) :=
  ⟨by decide, blank_question_only_warns "   ".toList
    (ChainOutcome.chainOk "SELECT 1".toList) (fun s => s) literalEvalStub
    (RunOutcome.ok (ExecResult.str "[]".toList)) (by decide)⟩

/-! ## C9 — the executed statement is the sanitized text, not the
formatted one -/

/-- C9: for every formatter `fmt` (standing for `sqlparse.format`), the
statement passed to `db.run` is `sanitize rawResponse` — independent of
`fmt` — while the `st.code` display shows `fmt (sanitize rawResponse)`:
formatting flows only into the displayed copy, never into execution. -/
theorem executed_sql_is_sanitized_not_formatted (question rawResponse :
    List Char) (fmt : List Char → List Char) (parse : List Char → Option PyVal)
    (run : RunOutcome) (h : pyTruthy (pyTrim question) = true) :
    firstDbRun (buttonTrace question (ChainOutcome.chainOk rawResponse) fmt
      parse run) = some (sanitize rawResponse) ∧
    firstCodeBlock (buttonTrace question (ChainOutcome.chainOk rawResponse) fmt
      parse run) = some (fmt (sanitize rawResponse)) := by
  constructor <;>
    simp [buttonTrace, h, firstDbRun, firstCodeBlock, List.cons_append]

/-- C9 witness: a concrete click with an uppercasing-free identity formatter
kept distinct from the executed text by the fence artifacts. -/
theorem executed_sql_is_sanitized_not_formatted_witness :
    pyTruthy (pyTrim "How many users?".toList) = true ∧
    (firstDbRun (buttonTrace "How many users?".toList
        (ChainOutcome.chainOk "```sql\nSELECT 1;```".toList) (fun s => s)
        literalEvalStub (RunOutcome.ok (ExecResult.str "[]".toList))) =
      some (sanitize "```sql\nSELECT 1;```".toList) ∧
     firstCodeBlock (buttonTrace "How many users?".toList
        (ChainOutcome.chainOk "```sql\nSELECT 1;```".toList) (fun s => s)
        literalEvalStub (RunOutcome.ok (ExecResult.str "[]".toList))) =
      some ((fun s => s) (sanitize "```sql\nSELECT 1;```".toList))) :=
  ⟨by decide, executed_sql_is_sanitized_not_formatted "How many users?".toList
    "```sql\nSELECT 1;```".toList (fun s => s) literalEvalStub
    (RunOutcome.ok (ExecResult.str "[]".toList)) (by decide)⟩

/-! ## C10 — the list branch is guarded and decided by the head alone -/

/-- C10: for every successfully parsed list result the normalizer never
reaches the unguarded-index fault (`Option.isSome` holds: the emptiness check
of line 149 guards the `parsed_result[0]` of line 151), and for a non-empty
list the rendering is decided by the head element alone: a tuple head sends
the *entire* list — heterogeneous or not — to the table branch, any other
head sends the entire list to the plain `st.write` branch. -/
theorem list_branch_guarded_and_head_decides (parse : List Char → Option PyVal)
    (s : List Char) (l : List PyVal)
    (hp : parse s = some (PyVal.pyList l)) :
    (renderResultG parse (ExecResult.str s)).isSome = true ∧
    (∀ h t, l = h :: t → isTuple h = true →
      renderResultG parse (ExecResult.str s) = some (UIEvent.dataframe l)) ∧
    (∀ h t, l = h :: t → isTuple h = false →
      renderResultG parse (ExecResult.str s) =
        some (UIEvent.writeVal (PyVal.pyList l))) := by
  refine ⟨?_, ?_, ?_⟩
  · cases l with
    | nil => simp [renderResultG, hp]
    | cons h t => cases hh : isTuple h <;> simp [renderResultG, hp, hh]
  · intro h t heq htup
    subst heq
    simp [renderResultG, hp, htup]
  · intro h t heq hf
    subst heq
    simp [renderResultG, hp, hf]

/-- C10 witness: a heterogeneous list whose head is a tuple is rendered
entirely as a table, and the guarded branch produces a value. -/
theorem list_branch_guarded_and_head_decides_witness :
    literalEvalStub "[(1,), 'x']".toList =
      some (PyVal.pyList [PyVal.tup [PyVal.pyInt 1], PyVal.pyStr ['x']]) ∧
    (renderResultG literalEvalStub
        (ExecResult.str "[(1,), 'x']".toList)).isSome = true ∧
    renderResultG literalEvalStub (ExecResult.str "[(1,), 'x']".toList) =
      some (UIEvent.dataframe [PyVal.tup [PyVal.pyInt 1], PyVal.pyStr ['x']]) :=
  ⟨rfl,
   (list_branch_guarded_and_head_decides literalEvalStub "[(1,), 'x']".toList
     [PyVal.tup [PyVal.pyInt 1], PyVal.pyStr ['x']] rfl).1,
   (list_branch_guarded_and_head_decides literalEvalStub "[(1,), 'x']".toList
     [PyVal.tup [PyVal.pyInt 1], PyVal.pyStr ['x']] rfl).2.1
     (PyVal.tup [PyVal.pyInt 1]) [PyVal.pyStr ['x']] rfl rfl⟩

end TextToSql
